import Mathlib

/-
Verification of the MongoDB-Elasticsearch integration service.

This file gives a shallow embedding of the synchronization and
query-translation logic of the repository: the document projections used
by the bulk-sync route, the sync service and the batch script, the
change-event handler, the query/sort builders of the search controller,
the response formatters, the sync-status probe, and the request
validation middleware.  The Elasticsearch index is modelled as an
association list from document identifier to document body; the engine
API calls used by the code (index, update without upsert, delete, bulk,
count) are modelled with their documented semantics (update and delete
of a missing identifier return a 404-style error, bulk reports one item
per operation with an optional per-item error).  JavaScript truthiness
of strings (the empty string is falsy) and the or-chains used for
response unwrapping are modelled explicitly.
-/

namespace MongoEs

/-- Character-level model of `String.toUpperCase`, written over the
character list so that the kernel can evaluate it on witnesses. -/
def toUpperJS (s : String) : String := ⟨s.data.map Char.toUpper⟩

/-- Character-level model of `String.toLowerCase`. -/
def toLowerJS (s : String) : String := ⟨s.data.map Char.toLower⟩

/-- Character-level model of `String.trim`. -/
def trimJS (s : String) : String :=
  ⟨((s.data.dropWhile Char.isWhitespace).reverse.dropWhile
      Char.isWhitespace).reverse⟩

/-- The numeric value of a decimal digit character, if it is one. -/
def decDigit? (c : Char) : Option Nat :=
  if 48 ≤ c.toNat ∧ c.toNat ≤ 57 then some (c.toNat - 48) else none

/-- Parse a non-empty run of decimal digits; `none` on a non-digit or
when nothing was read. -/
def parseNatChars : List Char → Option Nat → Option Nat
  | [], acc => acc
  | c :: rest, acc =>
    match decDigit? c, acc with
    | some d, some n => parseNatChars rest (some (10 * n + d))
    | some d, none => parseNatChars rest (some d)
    | none, _ => none

/-- Splitting on commas, accumulator-style over the character list
(model of `String.split(",")`). -/
def splitCommaAux : List Char → List Char → List String
  | [], acc => [⟨acc.reverse⟩]
  | c :: rest, acc =>
    if c = ',' then ⟨acc.reverse⟩ :: splitCommaAux rest []
    else splitCommaAux rest (c :: acc)

/-- A document of the record store (MongoDB `subnet_details` collection).
`mid` is the store-internal `_id` (stringified object id); all domain
attributes are optional, matching the generator in
`scripts/batch-operations.js` and the index mapping in
`elasticsearchService.js`. -/
structure Record where
  mid : String
  CLUSTERID : Option String := none
  CIDR : Option String := none
  CIDRIPV4 : Option String := none
  IPV4 : Option String := none
  IP : Option String := none
  SITE : Option String := none
  DESCRIPTION : Option String := none
  TIMESTAMP : Option String := none
  USERNAME : Option String := none
deriving DecidableEq

/-- A document body as written to the index.  `mid` is `some` when the
body still carries the record-store `_id` field; `suggestInput` /
`suggestContexts` are `some` when a `suggest` field was attached. -/
structure IndexDoc where
  mid : Option String
  CLUSTERID : Option String := none
  CIDR : Option String := none
  CIDRIPV4 : Option String := none
  IPV4 : Option String := none
  IP : Option String := none
  SITE : Option String := none
  DESCRIPTION : Option String := none
  TIMESTAMP : Option String := none
  USERNAME : Option String := none
  suggestInput : Option (List String) := none
  suggestContexts : Option (List String) := none
deriving DecidableEq

/-- Copy the domain attributes of a record into an index body, keeping
the record-store `_id` in the body and attaching nothing. -/
def recordBodyWithId (r : Record) : IndexDoc :=
  { mid := some r.mid, CLUSTERID := r.CLUSTERID, CIDR := r.CIDR,
    CIDRIPV4 := r.CIDRIPV4, IPV4 := r.IPV4, IP := r.IP, SITE := r.SITE,
    DESCRIPTION := r.DESCRIPTION, TIMESTAMP := r.TIMESTAMP,
    USERNAME := r.USERNAME }

/-- Projection used by the `POST /api/sync/bulk` route
(`searchRoutes.js`, sync router): destructures `{ _id, ...docWithoutId }`
and indexes the body without the `_id` field; no `suggest` field is
attached. -/
def syncRouteBulkBody (r : Record) : IndexDoc :=
  { recordBodyWithId r with mid := none }

/-- Projection used by `bulkSyncToElasticsearch` in `syncService.js`:
the document is indexed as-is (the `_id` field stays in the body); no
`suggest` field is attached. -/
def syncServiceBulkBody (r : Record) : IndexDoc :=
  recordBodyWithId r

/-- Body written by `handleChangeEvent` in `syncService.js` for insert
and update events: `change.fullDocument` unchanged (the `_id` field
stays in the body); no `suggest` field is attached. -/
def changeEventBody (r : Record) : IndexDoc :=
  recordBodyWithId r

/-- JavaScript truthiness test used by `if (doc.FIELD)`: an absent field
and the empty string are falsy. -/
def pushTruthy : Option String → List String
  | none => []
  | some s => if s = "" then [] else [s]

/-- The `suggest.input` array built by `transformForElasticsearch` in
`scripts/batch-operations.js`: push CLUSTERID, SITE, DESCRIPTION in that
order when truthy.  It is a plain array push, with no deduplication. -/
def suggestInputs (r : Record) : List String :=
  pushTruthy r.CLUSTERID ++ pushTruthy r.SITE ++ pushTruthy r.DESCRIPTION

/-- `transformForElasticsearch` from `scripts/batch-operations.js`:
spreads the document (so the `_id` field is retained) and attaches a
`suggest` field with the pushed inputs and the constant contexts. -/
def transformForElasticsearch (r : Record) : IndexDoc :=
  { recordBodyWithId r with
    suggestInput := some (suggestInputs r),
    suggestContexts := some ["subnet", "network"] }

/-- The tuple of domain attributes of an index body (everything except
the internal identifier and the suggest field), used to compare what
two projection paths agree on. -/
def domainFields (d : IndexDoc) :=
  (d.CLUSTERID, d.CIDR, d.CIDRIPV4, d.IPV4, d.IP, d.SITE, d.DESCRIPTION,
   d.TIMESTAMP, d.USERNAME)

/-- An error reported by the Elasticsearch client: optional HTTP status
code (`error.meta.statusCode` in the JavaScript client) and a message. -/
structure EsError where
  statusCode : Option Nat
  message : String
deriving DecidableEq

/-- The Elasticsearch index state: an association list from document
identifier to document body. -/
abbrev EsIndex := List (String × IndexDoc)

/-- Look up a document body by identifier. -/
def esGet : EsIndex → String → Option IndexDoc
  | [], _ => none
  | (i, d) :: rest, id => if i = id then some d else esGet rest id

/-- The engine `index` API: create or overwrite the document at the
identifier (upsert semantics). -/
def esPut : EsIndex → String → IndexDoc → EsIndex
  | [], id, d => [(id, d)]
  | (i, e) :: rest, id, d =>
    if i = id then (i, d) :: rest else (i, e) :: esPut rest id d

/-- The engine `delete` API: removing a missing identifier is a 404
`not_found` error. -/
def esDelete (idx : EsIndex) (id : String) : Except EsError EsIndex :=
  if (esGet idx id).isSome then
    .ok (idx.filter (fun p => p.1 ≠ id))
  else
    .error ⟨some 404, "not_found"⟩

/-- The engine `update` API as called by the code (a `doc` body with no
`doc_as_upsert` or `upsert` clause): strict update, a missing identifier
is a 404 `document_missing_exception`; on an existing identifier the
given fields overwrite the stored body. -/
def esUpdate (idx : EsIndex) (id : String) (d : IndexDoc) :
    Except EsError EsIndex :=
  if (esGet idx id).isSome then
    .ok (esPut idx id d)
  else
    .error ⟨some 404, "document_missing_exception"⟩

/-- A MongoDB change-stream event as consumed by `handleChangeEvent`. -/
inductive ChangeEvent where
  | insert (r : Record)
  | update (r : Record)
  | delete (id : String)
deriving DecidableEq

/-- The body of the `switch` in `handleChangeEvent` (`syncService.js`),
before its surrounding `try`/`catch`: insert calls `esClient.index`,
update calls `esClient.update` with a `doc` body, delete calls
`esClient.delete`. -/
def handleChangeEventCore (idx : EsIndex) : ChangeEvent → Except EsError EsIndex
  | .insert r => .ok (esPut idx r.mid (changeEventBody r))
  | .update r => esUpdate idx r.mid (changeEventBody r)
  | .delete id => esDelete idx id

/-- `handleChangeEvent` from `syncService.js`: the whole switch runs in
a `try`/`catch` whose catch only logs, so every engine error is
swallowed and the index state is left as it was. -/
def handleChangeEvent (idx : EsIndex) (e : ChangeEvent) : EsIndex :=
  match handleChangeEventCore idx e with
  | .ok idx2 => idx2
  | .error _ => idx

/-- Modelled from the spec: the change-stream consumer loop is left as a
placeholder in `setupChangeStreams`, and section 4.2 of the spec states
that events are applied in delivery order, one at a time, via the
per-event handler.  The loop is modelled as a left fold of
`handleChangeEvent` over the delivered events. -/
def applyChangeStream (idx : EsIndex) (events : List ChangeEvent) : EsIndex :=
  events.foldl handleChangeEvent idx

/-- One entry of the `items` array of a bulk response: the operation
identifier and the per-item error, if that item failed. -/
structure BulkItem where
  id : String
  error : Option String
deriving DecidableEq

/-- Error reason recorded for a rejected bulk item (for example a
type mismatch against the index mapping). -/
def bulkErrMsg : String := "mapper_parsing_exception"

/-- The engine `bulk` API over index operations.  `fails` is the
engine-side per-document verdict (for example a schema type mismatch):
a failing operation leaves the index untouched and yields an item with
an error, a succeeding operation upserts its document and yields an
item without an error.  Items are reported in operation order. -/
def esBulk (fails : String → IndexDoc → Bool) :
    EsIndex → List (String × IndexDoc) → EsIndex × List BulkItem
  | idx, [] => (idx, [])
  | idx, (id, d) :: rest =>
    if fails id d then
      let r := esBulk fails idx rest
      (r.1, ⟨id, some bulkErrMsg⟩ :: r.2)
    else
      let r := esBulk fails (esPut idx id d) rest
      (r.1, ⟨id, none⟩ :: r.2)

/-- The JSON body and status code sent by the `POST /api/sync/bulk`
route handler. -/
structure BulkSyncReply where
  status : Nat
  success : Bool
  message : Option String
  documentsProcessed : Nat
  errors : Option (List BulkItem)
  error : Option String
deriving DecidableEq

/-- The `POST /api/sync/bulk` handler (sync router in
`searchRoutes.js`): read the whole collection; an empty collection is a
success with zero documents processed; otherwise strip `_id` from every
document, submit one bulk call, and if the response reports errors,
answer HTTP 500 with `success: false`, `documentsProcessed` equal to
the number of records read and the items that carry an error; otherwise
answer HTTP 200 with `success: true`. -/
def postSyncBulk (fails : String → IndexDoc → Bool) (idx : EsIndex)
    (docs : List Record) : EsIndex × BulkSyncReply :=
  match docs with
  | [] =>
    (idx, ⟨200, true, some "No documents found in MongoDB to sync", 0, none, none⟩)
  | _ =>
    let ops := docs.map (fun d => (d.mid, syncRouteBulkBody d))
    let r := esBulk fails idx ops
    if r.2.any (fun it => it.error.isSome) then
      (r.1, ⟨500, false, none, docs.length,
             some (r.2.filter (fun it => it.error.isSome)),
             some "Bulk sync completed with errors"⟩)
    else
      (r.1, ⟨200, true, some "Bulk sync completed successfully",
             docs.length, none, none⟩)

/-- `bulkSyncToElasticsearch` from `syncService.js`: submits the whole
collection (bodies keep the `_id` field), only logs when the bulk
response reports errors, and returns the number of records read in
every case. -/
def bulkSyncToElasticsearch (fails : String → IndexDoc → Bool)
    (idx : EsIndex) (docs : List Record) : EsIndex × Nat :=
  match docs with
  | [] => (idx, 0)
  | _ =>
    let ops := docs.map (fun d => (d.mid, syncServiceBulkBody d))
    ((esBulk fails idx ops).1, docs.length)

/-- One sort key of the search body: field name and order string. -/
structure SortSpec where
  field : String
  order : String
deriving DecidableEq

/-- The Elasticsearch query representation built by the controller.
Boost factors are recorded in tenths (boost 3.0 is 30) so that the
design constants stay exact.  `boolQ` carries the should, must and
filter clauses and the optional `minimum_should_match`. -/
inductive EsQuery where
  | matchAll
  | term (field value : String) (boost : Nat)
  | wildcard (field value : String) (boost : Option Nat)
  | prefixQ (field value : String) (boost : Option Nat)
  | matchQ (field query : String) (fuzziness : Option String) (boost : Option Nat)
  | termsQ (field : String) (values : List String)
  | rangeQ (field : String) (gte lte : Option String)
  | boolQ (should must filter : List EsQuery) (minimumShouldMatch : Option Nat)

/-- `buildMultiFieldQuery` from `searchController.js`: the weighted
disjunction over exact terms, wildcards, the fuzzy VALUE match, the
autocomplete subfields and the prefix matches, with
`minimum_should_match: 1`.  `fz` is the effective fuzziness string
(`fuzzy ? fuzziness : 0`). -/
def buildMultiFieldQuery (q : String) (fuzzy : Bool) (fuzziness : String) :
    EsQuery :=
  let fz := if fuzzy then fuzziness else "0"
  .boolQ
    [ .boolQ
        [ .term "CLUSTERID" q 30, .term "SITE" q 30, .term "USERNAME" q 20 ]
        [] [] none,
      .boolQ
        [ .wildcard "CLUSTERID" ("*" ++ toLowerJS q ++ "*") (some 25),
          .wildcard "SITE" ("*" ++ toLowerJS q ++ "*") (some 25),
          .wildcard "USERNAME" ("*" ++ toLowerJS q ++ "*") (some 15),
          .wildcard "VALUE" ("*" ++ toLowerJS q ++ "*") (some 20) ]
        [] [] none,
      .matchQ "VALUE" q (some fz) (some 20),
      .boolQ
        [ .matchQ "CLUSTERID.autocomplete" q none (some 20),
          .matchQ "SITE.autocomplete" q none (some 20) ]
        [] [] none,
      .boolQ
        [ .prefixQ "CLUSTERID" (toLowerJS q) (some 15),
          .prefixQ "SITE" (toLowerJS q) (some 15),
          .prefixQ "USERNAME" (toLowerJS q) (some 10) ]
        [] [] none ]
    [] [] (some 1)

/-- The field allow-list of `buildFieldSpecificQuery`: field name (after
upper-casing) to index type. -/
def fieldMapping : String → Option String
  | "CLUSTERID" => some "keyword"
  | "SITE" => some "keyword"
  | "VALUE" => some "text"
  | "USERNAME" => some "keyword"
  | "CIDR" => some "keyword"
  | "CIDRIPV4" => some "keyword"
  | _ => none

/-- `buildFieldSpecificQuery` from `searchController.js`: look the
requested field up in the allow-list; an unknown field throws
`Invalid field: <field>` (a plain `Error`, with no HTTP status
metadata); a keyword field gets the term/wildcard/prefix disjunction;
a text field gets a match with the effective fuzziness. -/
def buildFieldSpecificQuery (q field : String) (fuzzy : Bool)
    (fuzziness : String) : Except String EsQuery :=
  match fieldMapping (toUpperJS field) with
  | none => .error ("Invalid field: " ++ field)
  | some ft =>
    if ft = "keyword" then
      .ok (.boolQ
        [ .term field q 30,
          .wildcard field ("*" ++ toLowerJS q ++ "*") (some 20),
          .prefixQ field (toLowerJS q) (some 15) ]
        [] [] (some 1))
    else
      .ok (.matchQ field q (some (if fuzzy then fuzziness else "0")) none)

/-- The sort-field allow-list of `buildSortConfig`. -/
def validSortFields : List String :=
  ["_score", "TIMESTAMP", "CLUSTERID", "SITE", "USERNAME"]

/-- `buildSortConfig` from `searchController.js`: a sort field outside
the allow-list falls back to `_score`; an order other than `asc`/`desc`
falls back to `desc`; a non-`_score` sort appends `_score` descending
as a secondary key. -/
def buildSortConfig (sortBy sortOrder : String) : List SortSpec :=
  let field := if sortBy ∈ validSortFields then sortBy else "_score"
  let order := if sortOrder = "asc" ∨ sortOrder = "desc" then sortOrder else "desc"
  if field = "_score" then
    [⟨"_score", order⟩]
  else
    [⟨field, order⟩, ⟨"_score", "desc"⟩]

/-- Integer parsing of an HTTP query string as the code uses it.  The
validation middleware combines `isNaN` (`Number` conversion) with
`parseInt`, and the controllers call `parseInt`; on the canonical
integer literals exercised here (optional minus sign followed by
digits) the two agree, and this model returns `none` (NaN) on anything
else. -/
def jsToIntOpt (s : String) : Option Int :=
  match s.data with
  | [] => none
  | c :: rest =>
    if c = '-' then (parseNatChars rest none).map (fun n => -(n : Int))
    else (parseNatChars (c :: rest) none).map (fun n => (n : Int))

/-- The raw query parameters of `GET /api/search`; every parameter is an
optional string, as delivered by the HTTP layer. -/
structure SearchQueryParams where
  q : Option String := none
  field : Option String := none
  fuzzy : Option String := none
  fuzziness : Option String := none
  size : Option String := none
  fromQ : Option String := none
  sortBy : Option String := none
  sortOrder : Option String := none
deriving DecidableEq

/-- JavaScript truthiness of an optional string parameter: absent and
empty are falsy. -/
def jsTruthy : Option String → Bool
  | none => false
  | some s => s ≠ ""

/-- `validateSearch` from the validation middleware: reject a missing or
trim-empty `q`, a present non-empty `size` outside 1..100 or
non-numeric, a present non-empty `from` that is negative or
non-numeric, and malformed `fuzzy` / `fuzziness` values; `none` means
the request proceeds to the controller. -/
def validateSearch (p : SearchQueryParams) : Option (Nat × String) :=
  match p.q with
  | none => some (400, "Query parameter q is required and cannot be empty")
  | some qs =>
    if trimJS qs = "" then
      some (400, "Query parameter q is required and cannot be empty")
    else if (match p.size with
             | some s => s ≠ "" &&
                 (match jsToIntOpt s with
                  | none => true
                  | some v => v < 1 || v > 100)
             | none => false) then
      some (400, "Size must be a number between 1 and 100")
    else if (match p.fromQ with
             | some s => s ≠ "" &&
                 (match jsToIntOpt s with
                  | none => true
                  | some v => v < 0)
             | none => false) then
      some (400, "From must be a non-negative number")
    else if (match p.fuzzy with
             | some s => s ≠ "" && !(["true", "false"].contains (toLowerJS s))
             | none => false) then
      some (400, "Fuzzy must be true or false")
    else if (match p.fuzziness with
             | some s => s ≠ "" && !(["AUTO", "0", "1", "2"].contains s)
             | none => false) then
      some (400, "Fuzziness must be AUTO, 0, 1, or 2")
    else
      none

/-- The search body the controller hands to `esClient.search`: query,
pagination (`none` models a NaN produced by `parseInt`), sort keys,
whether the highlight block is attached, and the aggregation clauses
(aggregation name and faceted field, each sized 10). -/
structure EngineRequest where
  query : EsQuery
  size : Option Int
  fromOff : Option Int
  sort : List SortSpec
  highlight : Bool
  aggs : List (String × String)

/-- The part of `searchController.search` that builds the engine
request, given the present, non-empty `q`.  A literal `*` is the
match-all shortcut (field and fuzziness ignored); a truthy `field`
selects the field-specific builder, which throws on an unknown field;
otherwise the multi-field builder runs.  Defaults mirror the
destructuring: size 10, from 0, sortBy `_score`, sortOrder `desc`,
fuzziness `AUTO`; `fuzzy` is used as a raw truthy string. -/
def searchBuildRequest (p : SearchQueryParams) (qs : String) :
    Except String EngineRequest :=
  let fuzzyT := jsTruthy p.fuzzy
  let fz := p.fuzziness.getD "AUTO"
  let queryE : Except String EsQuery :=
    if qs = "*" then .ok .matchAll
    else
      match p.field with
      | some f =>
        if f = "" then .ok (buildMultiFieldQuery qs fuzzyT fz)
        else buildFieldSpecificQuery qs f fuzzyT fz
      | none => .ok (buildMultiFieldQuery qs fuzzyT fz)
  match queryE with
  | .error m => .error m
  | .ok query =>
    .ok { query := query,
          size := (match p.size with
                   | none => some 10
                   | some s => jsToIntOpt s),
          fromOff := (match p.fromQ with
                      | none => some 0
                      | some s => jsToIntOpt s),
          sort := buildSortConfig (p.sortBy.getD "_score") (p.sortOrder.getD "desc"),
          highlight := true,
          aggs := [] }

/-- A raw hit of an engine response. -/
structure RawHit where
  id : String
  score : Option Int
  source : List (String × String)
  highlight : Option (List (String × String))
deriving DecidableEq

/-- The raw `total` of an engine response: either the object shape with
optional `value` and `relation`, or the bare-number shape of older
engines. -/
inductive RawTotal where
  | obj (value : Option Int) (relation : Option String)
  | num (n : Int)
deriving DecidableEq

/-- The raw `hits` object of an engine response. -/
structure RawHits where
  total : Option RawTotal
  hits : Option (List RawHit)
deriving DecidableEq

/-- Aggregation payload, passed through untouched by the formatter. -/
abbrev Aggs := List (String × Int)

/-- The nested body of a v7-style client response. -/
structure RawBody where
  hits : Option RawHits
  aggregations : Option Aggs
deriving DecidableEq

/-- A raw engine response as the formatter sees it: the payload may sit
nested under `body` (v7 client) or at the top level (v8 client). -/
structure RawResponse where
  body : Option RawBody
  hits : Option RawHits
  aggregations : Option Aggs
deriving DecidableEq

/-- The value slot of the formatted total.  The or-chain
`hits.total?.value || hits.total || 0` yields the number when the value
is a non-zero number, but echoes the whole total object when the object
is present and its `value` is 0 or absent; `objEcho` records that
echoed object. -/
inductive TotalValue where
  | int (n : Int)
  | objEcho (value : Option Int) (relation : Option String)
deriving DecidableEq

/-- The formatted total: value slot and relation string. -/
structure FormattedTotal where
  value : TotalValue
  relation : String
deriving DecidableEq

/-- A formatted hit of the main search response (highlight defaults to
the empty object). -/
structure FormattedHit where
  id : String
  score : Option Int
  source : List (String × String)
  highlight : List (String × String)
deriving DecidableEq

/-- The JSON body of a successful `GET /api/search` response. -/
structure SearchResponseBody where
  total : FormattedTotal
  hits : List FormattedHit
deriving DecidableEq

/-- The or-chain `response.body?.hits || response.hits`: the nested
shape is consulted first, the top-level shape only when the nested one
is absent. -/
def resolveHits (r : RawResponse) : Option RawHits :=
  match r.body with
  | some b =>
    match b.hits with
    | some h => some h
    | none => r.hits
  | none => r.hits

/-- The default hits object `{ total: { value: 0 }, hits: [] }`
substituted when neither response shape carries hits. -/
def defaultRawHits : RawHits :=
  ⟨some (.obj (some 0) none), some []⟩

/-- `hits.total?.value || hits.total || 0` under JavaScript truthiness:
a non-zero numeric `value` wins; a present total object whose `value`
is 0 or absent is echoed whole; a bare-number total passes through; a
missing total yields 0. -/
def totalValueJS (h : RawHits) : TotalValue :=
  match h.total with
  | some (.obj v rel) =>
    match v with
    | some n => if n = 0 then .objEcho (some 0) rel else .int n
    | none => .objEcho none rel
  | some (.num n) => .int n
  | none => .int 0

/-- `hits.total?.relation || "eq"`: the relation of an object-shaped
total is surfaced when truthy, everything else defaults to `eq`. -/
def relationJS (h : RawHits) : String :=
  match h.total with
  | some (.obj _ (some rel)) => if rel = "" then "eq" else rel
  | _ => "eq"

/-- The response formatting of `searchController.search` (after the
engine call): resolve the hits object with the nested-first or-chain,
defaulting when absent, then build the total and map the hits,
defaulting highlight to the empty object and the hit list to empty. -/
def formatSearch (r : RawResponse) : SearchResponseBody :=
  let h := (resolveHits r).getD defaultRawHits
  { total := ⟨totalValueJS h, relationJS h⟩,
    hits := (h.hits.getD []).map
      (fun hit => ⟨hit.id, hit.score, hit.source, hit.highlight.getD []⟩) }

/-- The HTTP outcome of the main search endpoint: a 200 with the
formatted body, or an error status with the `error` field and optional
`message` field of the JSON error body. -/
inductive SearchHttpResult where
  | ok (body : SearchResponseBody)
  | err (status : Nat) (error : String) (message : Option String)
deriving DecidableEq

/-- The HTTP status of a search outcome (200 on the success branch). -/
def SearchHttpResult.statusOf : SearchHttpResult → Nat
  | .ok _ => 200
  | .err s _ _ => s

/-- The `catch` block of `searchController.search`: an engine error
carrying HTTP 404 metadata becomes the index-not-found reply; every
other thrown error (including the plain `Invalid field` error, which
has no status metadata) becomes HTTP 500 `Search failed`, with the
underlying message only in development mode. -/
def searchCatch (dev : Bool) (e : EsError) : SearchHttpResult :=
  if e.statusCode = some 404 then
    .err 404 "Search index not found"
      (some "Please run bulk sync first to create the index")
  else
    .err 500 "Search failed"
      (some (if dev then e.message else "Internal server error"))

/-- The `GET /api/search` pipeline: the validation middleware runs
first; the controller re-checks `q` for truthiness, builds the request
(an unknown field throws into the catch block), calls the engine
(`engine` is the engine behaviour on the submitted body) and formats
the response. -/
def searchRespond (dev : Bool)
    (engine : EngineRequest → Except EsError RawResponse)
    (p : SearchQueryParams) : SearchHttpResult :=
  match validateSearch p with
  | some (c, m) => .err c m none
  | none =>
    match p.q with
    | none => .err 400 "Query parameter q is required" none
    | some qs =>
      if qs = "" then .err 400 "Query parameter q is required" none
      else
        match searchBuildRequest p qs with
        | .error m => searchCatch dev ⟨none, m⟩
        | .ok req =>
          match engine req with
          | .error e => searchCatch dev e
          | .ok raw => .ok (formatSearch raw)

/-- The body `searchController.search` submits to `esClient.search`, if
any: `none` when the middleware rejects, when `q` is falsy, or when
the query builder throws before the engine is reached. -/
def searchIssuedRequest (p : SearchQueryParams) : Option EngineRequest :=
  match validateSearch p with
  | some _ => none
  | none =>
    match p.q with
    | none => none
    | some qs =>
      if qs = "" then none
      else (searchBuildRequest p qs).toOption

/-- The raw query parameters of `GET /api/search/advanced`; the route
registers no validation middleware. -/
structure AdvQueryParams where
  q : Option String := none
  sites : Option String := none
  clusters : Option String := none
  usernames : Option String := none
  dateFrom : Option String := none
  dateTo : Option String := none
  size : Option String := none
  fromQ : Option String := none
  sortBy : Option String := none
  sortOrder : Option String := none
deriving DecidableEq

/-- `values.split(",").map(s => s.trim())` on a filter parameter. -/
def splitCSV (s : String) : List String :=
  (splitCommaAux s.data []).map trimJS

/-- A truthy optional string kept as data (absent and empty become
`none`), as used by the `if (dateFrom)` / `if (dateTo)` guards. -/
def truthyOpt : Option String → Option String
  | none => none
  | some s => if s = "" then none else some s

/-- `searchController.advancedSearch` up to the engine call: an
optional multi-field text clause (fuzziness hardwired off), terms
filters for truthy `sites` / `clusters` / `usernames`, an optional
timestamp range, match-all when no clause is present, the shared sort
builder, `parseInt` pagination with defaults 10 and 0, and the three
fixed aggregations.  No bound on `size` or `from` is checked
anywhere on this path. -/
def advancedBuildRequest (p : AdvQueryParams) : EngineRequest :=
  let must :=
    match p.q with
    | some qs => if qs = "" then [] else [buildMultiFieldQuery qs false "AUTO"]
    | none => []
  let siteF :=
    match p.sites with
    | some s => if s = "" then [] else [EsQuery.termsQ "SITE" (splitCSV s)]
    | none => []
  let clusterF :=
    match p.clusters with
    | some s => if s = "" then [] else [EsQuery.termsQ "CLUSTERID" (splitCSV s)]
    | none => []
  let userF :=
    match p.usernames with
    | some s => if s = "" then [] else [EsQuery.termsQ "USERNAME" (splitCSV s)]
    | none => []
  let df := truthyOpt p.dateFrom
  let dt := truthyOpt p.dateTo
  let dateF :=
    if df.isSome || dt.isSome then [EsQuery.rangeQ "TIMESTAMP" df dt] else []
  let filters := siteF ++ clusterF ++ userF ++ dateF
  let query :=
    if must.isEmpty && filters.isEmpty then EsQuery.matchAll
    else EsQuery.boolQ [] must filters none
  { query := query,
    size := (match p.size with
             | none => some 10
             | some s => jsToIntOpt s),
    fromOff := (match p.fromQ with
                | none => some 0
                | some s => jsToIntOpt s),
    sort := buildSortConfig (p.sortBy.getD "_score") (p.sortOrder.getD "desc"),
    highlight := false,
    aggs := [("sites", "SITE"), ("clusters", "CLUSTERID"), ("users", "USERNAME")] }

/-- A formatted hit of the advanced response (no highlight field). -/
structure AdvHit where
  id : String
  score : Option Int
  source : List (String × String)
deriving DecidableEq

/-- The JSON body of a successful advanced-search response. -/
structure AdvResponseBody where
  total : FormattedTotal
  hits : List AdvHit
  aggregations : Aggs
deriving DecidableEq

/-- The or-chain `response.body?.aggregations || response.aggregations
|| {}` (an empty aggregations object is still truthy). -/
def resolveAggs (r : RawResponse) : Aggs :=
  match r.body with
  | some b =>
    match b.aggregations with
    | some a => a
    | none => r.aggregations.getD []
  | none => r.aggregations.getD []

/-- The response formatting of `advancedSearch`: same nested-first hits
resolution and total handling as the main search, no highlight, plus
the passed-through aggregations. -/
def formatAdvanced (r : RawResponse) : AdvResponseBody :=
  let h := (resolveHits r).getD defaultRawHits
  { total := ⟨totalValueJS h, relationJS h⟩,
    hits := (h.hits.getD []).map (fun hit => ⟨hit.id, hit.score, hit.source⟩),
    aggregations := resolveAggs r }

/-- The HTTP outcome of the advanced search endpoint. -/
inductive AdvHttpResult where
  | ok (body : AdvResponseBody)
  | err (status : Nat) (error : String) (message : Option String)
deriving DecidableEq

/-- The HTTP status of an advanced-search outcome. -/
def AdvHttpResult.statusOf : AdvHttpResult → Nat
  | .ok _ => 200
  | .err s _ _ => s

/-- The `GET /api/search/advanced` pipeline: no middleware, no
parameter checks; the catch block answers 500 for every thrown error
(there is no 404 special case here). -/
def advancedRespond (engine : EngineRequest → Except EsError RawResponse)
    (p : AdvQueryParams) : AdvHttpResult :=
  match engine (advancedBuildRequest p) with
  | .error e => .err 500 "Advanced search failed" (some e.message)
  | .ok raw => .ok (formatAdvanced raw)

/-- The body shape of an `esClient.count` response (nested v7 or
top-level v8). -/
structure RawCountBody where
  count : Option Int
deriving DecidableEq

/-- A raw `esClient.count` response. -/
structure RawCountResp where
  body : Option RawCountBody
  count : Option Int
deriving DecidableEq

/-- `esResponse.body?.count || esResponse.count || 0` under JavaScript
truthiness: a present non-zero nested count wins, otherwise the
top-level count, otherwise 0. -/
def countJS (r : RawCountResp) : Int :=
  let tail :=
    match r.count with
    | some n => n
    | none => 0
  match r.body with
  | some b =>
    (match b.count with
     | some n => if n = 0 then tail else n
     | none => tail)
  | none => tail

/-- The JSON body of a successful `GET /api/sync/status` response. -/
structure SyncStatusBody where
  mongoCount : Nat
  esCount : Int
  synced : Bool
  difference : Int
deriving DecidableEq

/-- The snapshot the status route assembles from the two counts. -/
def syncStatusBody (mc : Nat) (ec : Int) : SyncStatusBody :=
  ⟨mc, ec, decide ((mc : Int) = ec), (mc : Int) - ec⟩

/-- The HTTP outcome of the sync status probe. -/
inductive SyncStatusResult where
  | ok (body : SyncStatusBody)
  | err (status : Nat) (error message : String)
deriving DecidableEq

/-- The `GET /api/sync/status` handler: take the record-store count;
ask the engine for its count, treating a 404 (index does not exist yet)
as count 0 and rethrowing any other engine error into the outer catch,
which answers HTTP 500; on success report the two counts, `synced` as
count equality and `difference` as their difference. -/
def syncStatusHandler (mongoCount : Nat)
    (es : Except EsError RawCountResp) : SyncStatusResult :=
  let ecE : Except EsError Int :=
    match es with
    | .ok resp => .ok (countJS resp)
    | .error e => if e.statusCode = some 404 then .ok 0 else .error e
  match ecE with
  | .ok ec => .ok (syncStatusBody mongoCount ec)
  | .error e => .err 500 "Failed to get sync status" e.message

/-- Concrete record used as the first batch document in examples. -/
def ra : Record := { mid := "a", CLUSTERID := some "c1", SITE := some "s1" }

/-- Concrete record used as the second batch document in examples. -/
def rb : Record := { mid := "b", SITE := some "s2" }

/-- Concrete two-document batch. -/
def docs0 : List Record := [ra, rb]

/-- Concrete engine verdict: the document with identifier `b` fails to
index, every other document succeeds. -/
def fails0 : String → IndexDoc → Bool := fun id _ => id == "b"

/-- Concrete record with equal CLUSTERID and SITE values. -/
def rDup : Record := { mid := "m", CLUSTERID := some "x", SITE := some "x" }

/-- Concrete search request naming a field outside the allow-list. -/
def pNope : SearchQueryParams := { q := some "east", field := some "NOPE" }

/-- Concrete engine behaviour answering the empty raw response. -/
def engineStub : EngineRequest → Except EsError RawResponse :=
  fun _ => .ok ⟨none, none, none⟩

/-- Concrete raw response carrying both shapes at once: an unnested
top-level hits object reporting total 7 and a nested body hits object
reporting total 5. -/
def rawBoth : RawResponse :=
  ⟨some ⟨some ⟨some (.obj (some 5) none), some []⟩, none⟩,
   some ⟨some (.obj (some 7) none), some []⟩, none⟩

section Lemmas

theorem esGet_esPut_self (idx : EsIndex) (id : String) (d : IndexDoc) :
    esGet (esPut idx id d) id = some d := by
  induction idx with
  | nil => simp [esPut, esGet]
  | cons p rest ih =>
    obtain ⟨pi, pd⟩ := p
    by_cases h : pi = id
    · simp [esPut, esGet, h]
    · simp [esPut, esGet, h, ih]

theorem esGet_esPut_ne (idx : EsIndex) (i id : String) (d : IndexDoc)
    (h : i ≠ id) : esGet (esPut idx id d) i = esGet idx i := by
  have hne : ¬ (id = i) := fun hc => h hc.symm
  induction idx with
  | nil => simp [esPut, esGet, hne]
  | cons p rest ih =>
    obtain ⟨pi, pd⟩ := p
    by_cases hp : pi = id
    · simp [esPut, esGet, hp, hne]
    · simp [esPut, esGet, hp, ih]

theorem esBulk_snd (fails : String → IndexDoc → Bool)
    (ops : List (String × IndexDoc)) : ∀ idx : EsIndex,
    (esBulk fails idx ops).2 =
      ops.map (fun pr =>
        ⟨pr.1, if fails pr.1 pr.2 then some bulkErrMsg else none⟩) := by
  induction ops with
  | nil => intro idx; simp [esBulk]
  | cons op rest ih =>
    obtain ⟨oi, od⟩ := op
    intro idx
    by_cases h : fails oi od
    · simp [esBulk, h, ih]
    · simp [esBulk, h, ih]

theorem esBulk_get_not_mem (fails : String → IndexDoc → Bool)
    (ops : List (String × IndexDoc)) : ∀ (idx : EsIndex) (id : String),
    id ∉ ops.map Prod.fst →
    esGet (esBulk fails idx ops).1 id = esGet idx id := by
  induction ops with
  | nil => intro idx id _; simp [esBulk]
  | cons op rest ih =>
    obtain ⟨oi, od⟩ := op
    intro idx id hmem
    simp only [List.map_cons, List.mem_cons, not_or] at hmem
    by_cases h : fails oi od
    · simpa [esBulk, h] using ih idx id hmem.2
    · have step : esGet (esBulk fails idx ((oi, od) :: rest)).1 id =
          esGet (esBulk fails (esPut idx oi od) rest).1 id := by
        simp [esBulk, h]
      rw [step, ih _ id hmem.2, esGet_esPut_ne idx id oi od hmem.1]

theorem esBulk_get_success (fails : String → IndexDoc → Bool)
    (ops : List (String × IndexDoc)) : ∀ (idx : EsIndex) (id : String)
    (d : IndexDoc), (id, d) ∈ ops → fails id d = false →
    (ops.map Prod.fst).Nodup →
    esGet (esBulk fails idx ops).1 id = some d := by
  induction ops with
  | nil => intro idx id d hm _ _; simp at hm
  | cons op rest ih =>
    obtain ⟨oi, od⟩ := op
    intro idx id d hm hf hnd
    simp only [List.map_cons, List.nodup_cons] at hnd
    rcases List.mem_cons.1 hm with heq | hrest
    · have h1 : id = oi := congrArg Prod.fst heq
      have h2 : d = od := congrArg Prod.snd heq
      subst h1
      subst h2
      have step : esGet (esBulk fails idx ((id, d) :: rest)).1 id =
          esGet (esBulk fails (esPut idx id d) rest).1 id := by
        simp [esBulk, hf]
      rw [step, esBulk_get_not_mem fails rest _ id hnd.1,
        esGet_esPut_self idx id d]
    · by_cases h : fails oi od
      · simpa [esBulk, h] using ih idx id d hrest hf hnd.2
      · simpa [esBulk, h] using ih (esPut idx oi od) id d hrest hf hnd.2

theorem filter_map_bulk (fails : String → IndexDoc → Bool)
    (proj : Record → IndexDoc) (docs : List Record) :
    ((docs.map (fun d =>
        (⟨d.mid, if fails d.mid (proj d) then some bulkErrMsg else none⟩ :
          BulkItem))).filter
      (fun it => it.error.isSome)).map BulkItem.id =
    (docs.filter (fun d => fails d.mid (proj d))).map Record.mid := by
  induction docs with
  | nil => simp
  | cons d rest ih =>
    by_cases h : fails d.mid (proj d)
    · simp [h, List.filter_cons, ih]
    · simp [h, List.filter_cons, ih]

theorem mem_pushTruthy (o : Option String) (s : String) :
    s ∈ pushTruthy o ↔ o = some s ∧ s ≠ "" := by
  cases o with
  | none => simp [pushTruthy]
  | some t =>
    by_cases h : t = ""
    · subst h
      constructor
      · intro hs; simp [pushTruthy] at hs
      · rintro ⟨hst, hne⟩
        exact absurd (Option.some.inj hst).symm hne
    · constructor
      · intro hs
        have hst : s = t := by simpa [pushTruthy, h] using hs
        subst hst
        exact ⟨rfl, h⟩
      · rintro ⟨hst, _⟩
        have hts : t = s := Option.some.inj hst
        subst hts
        simp [pushTruthy, h]

end Lemmas

/-- C1 (counterexample): with the two-record batch `docs0` of which
exactly the record with identifier `b` fails to index, the bulk-sync
route reports the operation as a failure — HTTP 500 with
`success: false` — not as a success as claimed, even though
`documentsProcessed` is the number of records read (2), the error list
names exactly the failing document, and the succeeded document is still
indexed. -/
theorem bulk_partial_failure_success_cex :
    (postSyncBulk fails0 [] docs0).2.success = false ∧
    (postSyncBulk fails0 [] docs0).2.status = 500 ∧
    (postSyncBulk fails0 [] docs0).2.documentsProcessed = 2 ∧
    ((postSyncBulk fails0 [] docs0).2.errors.getD []).map BulkItem.id = ["b"] ∧
    esGet (postSyncBulk fails0 [] docs0).1 "a" = some (syncRouteBulkBody ra) := by
  decide

/-- C1 (amended): when some document of a non-empty reconcile batch
fails to index, the bulk-sync route reports the operation as a failure
(HTTP 500, `success: false`) — but it still returns
`documentsProcessed` equal to the number of records read, a non-empty
per-document error list naming exactly the failing documents, and every
document that succeeded remains indexed; the sync-service variant of
the bulk reconcile returns the full record count with no error
surfaced at all. -/
theorem bulk_partial_failure_reporting (fails : String → IndexDoc → Bool)
    (idx : EsIndex) (docs : List Record)
    (hfail : docs.any (fun d => fails d.mid (syncRouteBulkBody d)) = true)
    (hnd : (docs.map Record.mid).Nodup) :
    (postSyncBulk fails idx docs).2.success = false ∧
    (postSyncBulk fails idx docs).2.status = 500 ∧
    (postSyncBulk fails idx docs).2.documentsProcessed = docs.length ∧
    ((postSyncBulk fails idx docs).2.errors.getD []).map BulkItem.id =
      (docs.filter (fun d => fails d.mid (syncRouteBulkBody d))).map Record.mid ∧
    (postSyncBulk fails idx docs).2.errors.getD [] ≠ [] ∧
    (∀ d ∈ docs, fails d.mid (syncRouteBulkBody d) = false →
      esGet (postSyncBulk fails idx docs).1 d.mid = some (syncRouteBulkBody d)) ∧
    (bulkSyncToElasticsearch fails idx docs).2 = docs.length := by
  cases docs with
  | nil => simp at hfail
  | cons a l =>
    obtain ⟨d0, hd0mem, hd0⟩ := List.any_eq_true.1 hfail
    have hops : ((a :: l).map (fun d => (d.mid, syncRouteBulkBody d))).map
        Prod.fst = (a :: l).map Record.mid := by
      simp [List.map_map, Function.comp]
    have hitems : (esBulk fails idx
        ((a :: l).map (fun d => (d.mid, syncRouteBulkBody d)))).2 =
        (a :: l).map (fun d =>
          (⟨d.mid, if fails d.mid (syncRouteBulkBody d) then some bulkErrMsg
            else none⟩ : BulkItem)) := by
      rw [esBulk_snd]
      simp [List.map_map, Function.comp]
    have hflag : ((esBulk fails idx
        ((a :: l).map (fun d => (d.mid, syncRouteBulkBody d)))).2.any
          (fun it => it.error.isSome)) = true := by
      rw [hitems]
      refine List.any_eq_true.2 ⟨_, List.mem_map_of_mem _ hd0mem, ?_⟩
      simp [hd0]
    have hout : postSyncBulk fails idx (a :: l) =
        ((esBulk fails idx
           ((a :: l).map (fun d => (d.mid, syncRouteBulkBody d)))).1,
         ⟨500, false, none, (a :: l).length,
          some ((esBulk fails idx
            ((a :: l).map (fun d => (d.mid, syncRouteBulkBody d)))).2.filter
              (fun it => it.error.isSome)),
          some "Bulk sync completed with errors"⟩) := by
      simp only [postSyncBulk]
      rw [if_pos hflag]
    refine ⟨by rw [hout], by rw [hout], by rw [hout], ?_, ?_, ?_, ?_⟩
    · rw [hout]
      simp only [Option.getD_some]
      rw [hitems, filter_map_bulk]
    · rw [hout]
      simp only [Option.getD_some]
      rw [hitems]
      intro hnil
      have : ((a :: l).filter
          (fun d => fails d.mid (syncRouteBulkBody d))).map Record.mid = [] := by
        rw [← filter_map_bulk fails syncRouteBulkBody, hnil]
        simp
      have hmem : d0 ∈ (a :: l).filter
          (fun d => fails d.mid (syncRouteBulkBody d)) :=
        List.mem_filter.2 ⟨hd0mem, hd0⟩
      exact absurd this
        (by simpa using List.ne_nil_of_mem (List.mem_map_of_mem Record.mid hmem))
    · intro d hdmem hdok
      rw [hout]
      exact esBulk_get_success fails _ idx d.mid (syncRouteBulkBody d)
        (List.mem_map_of_mem _ hdmem) hdok (by rw [hops]; exact hnd)
    · rfl

/-- C1 (witness): the amended statement evaluated on the concrete batch
`docs0` under the verdict `fails0`. -/
theorem bulk_partial_failure_reporting_witness :
    (postSyncBulk fails0 [] docs0).2.success = false ∧
    (postSyncBulk fails0 [] docs0).2.status = 500 ∧
    (postSyncBulk fails0 [] docs0).2.documentsProcessed = docs0.length ∧
    ((postSyncBulk fails0 [] docs0).2.errors.getD []).map BulkItem.id =
      (docs0.filter (fun d => fails0 d.mid (syncRouteBulkBody d))).map Record.mid ∧
    (postSyncBulk fails0 [] docs0).2.errors.getD [] ≠ [] ∧
    (∀ d ∈ docs0, fails0 d.mid (syncRouteBulkBody d) = false →
      esGet (postSyncBulk fails0 [] docs0).1 d.mid = some (syncRouteBulkBody d)) ∧
    (bulkSyncToElasticsearch fails0 [] docs0).2 = docs0.length :=
  bulk_partial_failure_reporting fails0 [] docs0 (by decide) (by decide)

/-- C2 (counterexample): for the concrete record `ra`, the projection
written by the change-event propagator and the projection written by
the bulk-sync route are not byte-identical — the propagator keeps the
internal identifier in the body while the route strips it — and
neither path attaches a suggest field, contrary to the claim that both
strip the identifier and both attach the same suggest field. -/
theorem projection_paths_differ_cex :
    changeEventBody ra ≠ syncRouteBulkBody ra ∧
    (changeEventBody ra).mid = some "a" ∧
    (syncRouteBulkBody ra).mid = none ∧
    (changeEventBody ra).suggestInput = none ∧
    (syncRouteBulkBody ra).suggestInput = none := by
  decide

/-- C2 (amended): the per-event propagator indexes the record body
unchanged (internal identifier retained, no suggest field), the
sync-service bulk path does the same, and the bulk-sync route strips
the internal identifier and attaches no suggest field; the paths agree
on all domain fields but differ on the identifier field, so their
projections are never byte-identical; only the standalone batch
script's `transformForElasticsearch` attaches a suggest field, and it
retains the internal identifier. -/
theorem projection_paths_characterized (r : Record) :
    (changeEventBody r).mid = some r.mid ∧
    (syncServiceBulkBody r).mid = some r.mid ∧
    (syncRouteBulkBody r).mid = none ∧
    (changeEventBody r).suggestInput = none ∧
    (syncServiceBulkBody r).suggestInput = none ∧
    (syncRouteBulkBody r).suggestInput = none ∧
    domainFields (changeEventBody r) = domainFields (syncRouteBulkBody r) ∧
    changeEventBody r ≠ syncRouteBulkBody r ∧
    (transformForElasticsearch r).mid = some r.mid ∧
    (transformForElasticsearch r).suggestInput = some (suggestInputs r) := by
  refine ⟨rfl, rfl, rfl, rfl, rfl, rfl, rfl, ?_, rfl, rfl⟩
  intro h
  have hmid : (some r.mid : Option String) = none := congrArg IndexDoc.mid h
  simp at hmid

/-- C2 (witness): the amended statement evaluated on the concrete
record `ra`. -/
theorem projection_paths_characterized_witness :
    (changeEventBody ra).mid = some ra.mid ∧
    (syncServiceBulkBody ra).mid = some ra.mid ∧
    (syncRouteBulkBody ra).mid = none ∧
    (changeEventBody ra).suggestInput = none ∧
    (syncServiceBulkBody ra).suggestInput = none ∧
    (syncRouteBulkBody ra).suggestInput = none ∧
    domainFields (changeEventBody ra) = domainFields (syncRouteBulkBody ra) ∧
    changeEventBody ra ≠ syncRouteBulkBody ra ∧
    (transformForElasticsearch ra).mid = some ra.mid ∧
    (transformForElasticsearch ra).suggestInput = some (suggestInputs ra) :=
  projection_paths_characterized ra

/-- C3 (counterexample): the request with `q = east` and `field = NOPE`
(outside the allow-list) passes the validation middleware and is
answered with HTTP 500 `Search failed` — a server error, not the
claimed 4xx client error — and no query is issued to the engine; the
message names the field only because development mode is on. -/
theorem invalid_field_server_error_cex :
    searchRespond true engineStub pNope =
      .err 500 "Search failed" (some "Invalid field: NOPE") ∧
    (searchIssuedRequest pNope).isNone = true := by
  decide

/-- C3 (amended): every search request that passes the middleware,
carries a non-wildcard query and names a truthy target field outside
the fixed allow-list is rejected with HTTP 500 `Search failed` — the
generic server-error branch, since the thrown invalid-field error
carries no HTTP status metadata — with a message that names the
offending field only in development mode, and no query is issued to
the index engine. -/
theorem invalid_field_rejected (dev : Bool)
    (engine : EngineRequest → Except EsError RawResponse)
    (p : SearchQueryParams) (f qs : String)
    (hv : validateSearch p = none) (hq : p.q = some qs) (hne : qs ≠ "")
    (hstar : qs ≠ "*") (hf : p.field = some f) (hfne : f ≠ "")
    (hmap : fieldMapping (toUpperJS f) = none) :
    searchRespond dev engine p =
      .err 500 "Search failed"
        (some (if dev then "Invalid field: " ++ f else "Internal server error")) ∧
    (searchIssuedRequest p).isNone = true := by
  have hbuild : searchBuildRequest p qs = .error ("Invalid field: " ++ f) := by
    simp [searchBuildRequest, hstar, hf, hfne, buildFieldSpecificQuery, hmap]
  constructor
  · simp [searchRespond, hv, hq, hne, hbuild, searchCatch]
  · simp [searchIssuedRequest, hv, hq, hne, hbuild, Except.toOption]

/-- C3 (witness): the amended statement evaluated on the concrete
request `pNope` in development mode. -/
theorem invalid_field_rejected_witness :
    searchRespond true engineStub pNope =
      .err 500 "Search failed"
        (some (if true then "Invalid field: " ++ "NOPE"
               else "Internal server error")) ∧
    (searchIssuedRequest pNope).isNone = true :=
  invalid_field_rejected true engineStub pNope "NOPE" "east" (by decide)
    (by decide) (by decide) (by decide) (by decide) (by decide) (by decide)

/-- C4 (counterexample): for the sort field `bogus` (outside the
allow-list) with requested direction `asc`, the sort configuration is
relevance in the requested ascending direction — not relevance
descending regardless of direction, as claimed. -/
theorem sort_invalid_field_direction_cex :
    buildSortConfig "bogus" "asc" = [⟨"_score", "asc"⟩] ∧
    buildSortConfig "bogus" "asc" ≠ [⟨"_score", "desc"⟩] := by
  decide

/-- C4 (amended): a sort field outside the allow-list behaves exactly
like an explicit relevance sort with the same requested direction —
relevance descending only when the direction is `desc` or itself
invalid; an invalid direction falls back to descending; every valid
non-relevance sort keeps the requested field first and appends
relevance-descending as the secondary tie-break key; sort translation
never fails and always yields at least one key. -/
theorem sort_translation (sortBy sortOrder : String)
    (hinv : sortBy ∉ validSortFields) :
    buildSortConfig sortBy sortOrder = buildSortConfig "_score" sortOrder ∧
    buildSortConfig sortBy "asc" = [⟨"_score", "asc"⟩] ∧
    buildSortConfig sortBy "desc" = [⟨"_score", "desc"⟩] ∧
    buildSortConfig sortBy "bogus" = [⟨"_score", "desc"⟩] ∧
    (buildSortConfig "TIMESTAMP" sortOrder).getLast? = some ⟨"_score", "desc"⟩ ∧
    (buildSortConfig "CLUSTERID" sortOrder).getLast? = some ⟨"_score", "desc"⟩ ∧
    (buildSortConfig "SITE" sortOrder).getLast? = some ⟨"_score", "desc"⟩ ∧
    (buildSortConfig "USERNAME" sortOrder).getLast? = some ⟨"_score", "desc"⟩ ∧
    (buildSortConfig "TIMESTAMP" "asc").head? = some ⟨"TIMESTAMP", "asc"⟩ ∧
    buildSortConfig sortBy sortOrder ≠ [] := by
  have e1 : ∀ o, buildSortConfig sortBy o =
      [⟨"_score", if o = "asc" ∨ o = "desc" then o else "desc"⟩] := by
    intro o
    simp only [buildSortConfig]
    rw [if_neg hinv]
    simp
  have e2 : ∀ f, f ∈ validSortFields → ¬ (f = "_score") → ∀ o,
      buildSortConfig f o =
        [⟨f, if o = "asc" ∨ o = "desc" then o else "desc"⟩,
         ⟨"_score", "desc"⟩] := by
    intro f hm hne o
    simp only [buildSortConfig]
    rw [if_pos hm, if_neg hne]
  refine ⟨?_, ?_, ?_, ?_, ?_, ?_, ?_, ?_, ?_, ?_⟩
  · rw [e1 sortOrder]
    simp [buildSortConfig, validSortFields]
  · rw [e1 "asc"]
    simp
  · rw [e1 "desc"]
    simp
  · rw [e1 "bogus"]
    simp
  · rw [e2 "TIMESTAMP" (by decide) (by decide) sortOrder]
    simp
  · rw [e2 "CLUSTERID" (by decide) (by decide) sortOrder]
    simp
  · rw [e2 "SITE" (by decide) (by decide) sortOrder]
    simp
  · rw [e2 "USERNAME" (by decide) (by decide) sortOrder]
    simp
  · decide
  · rw [e1 sortOrder]
    simp

/-- C4 (witness): the amended statement evaluated at sort field `bogus`
and requested direction `asc`. -/
theorem sort_translation_witness :
    buildSortConfig "bogus" "asc" = buildSortConfig "_score" "asc" ∧
    buildSortConfig "bogus" "asc" = [⟨"_score", "asc"⟩] ∧
    buildSortConfig "bogus" "desc" = [⟨"_score", "desc"⟩] ∧
    buildSortConfig "bogus" "bogus" = [⟨"_score", "desc"⟩] ∧
    (buildSortConfig "TIMESTAMP" "asc").getLast? = some ⟨"_score", "desc"⟩ ∧
    (buildSortConfig "CLUSTERID" "asc").getLast? = some ⟨"_score", "desc"⟩ ∧
    (buildSortConfig "SITE" "asc").getLast? = some ⟨"_score", "desc"⟩ ∧
    (buildSortConfig "USERNAME" "asc").getLast? = some ⟨"_score", "desc"⟩ ∧
    (buildSortConfig "TIMESTAMP" "asc").head? = some ⟨"TIMESTAMP", "asc"⟩ ∧
    buildSortConfig "bogus" "asc" ≠ [] :=
  sort_translation "bogus" "asc" (by decide)

/-- C5 (counterexample): for the record `rDup` whose CLUSTERID and SITE
both hold the value `x`, the built suggest input is the list with `x`
twice: a value occurring in more than one field is kept once per field,
not collapsed into a set as claimed. -/
theorem suggest_dedup_cex :
    (transformForElasticsearch rDup).suggestInput = some ["x", "x"] ∧
    ((transformForElasticsearch rDup).suggestInput.getD []).count "x" = 2 := by
  decide

/-- C5 (amended): the suggest input of a projected record is the list
of its truthy text-bearing fields pushed in the fixed priority order
CLUSTERID, SITE, DESCRIPTION: every member is a non-empty value of one
of those fields, every non-empty value of those fields is a member, and
empty or absent fields contribute nothing — but a value occurring in
more than one field is kept once per field (no deduplication). -/
theorem suggest_input_characterized (r : Record) :
    (transformForElasticsearch r).suggestInput = some (suggestInputs r) ∧
    (∀ s ∈ suggestInputs r, s ≠ "" ∧
      (r.CLUSTERID = some s ∨ r.SITE = some s ∨ r.DESCRIPTION = some s)) ∧
    (∀ s : String, s ≠ "" →
      (r.CLUSTERID = some s ∨ r.SITE = some s ∨ r.DESCRIPTION = some s) →
      s ∈ suggestInputs r) := by
  refine ⟨rfl, ?_, ?_⟩
  · intro s hs
    simp only [suggestInputs, List.mem_append, mem_pushTruthy] at hs
    rcases hs with (⟨hc, hn⟩ | ⟨hc, hn⟩) | ⟨hc, hn⟩
    · exact ⟨hn, Or.inl hc⟩
    · exact ⟨hn, Or.inr (Or.inl hc)⟩
    · exact ⟨hn, Or.inr (Or.inr hc)⟩
  · intro s hne hor
    simp only [suggestInputs, List.mem_append, mem_pushTruthy]
    rcases hor with h | h | h
    · exact Or.inl (Or.inl ⟨h, hne⟩)
    · exact Or.inl (Or.inr ⟨h, hne⟩)
    · exact Or.inr ⟨h, hne⟩

/-- C5 (witness): the amended statement evaluated on the concrete
record `rDup`. -/
theorem suggest_input_characterized_witness :
    (transformForElasticsearch rDup).suggestInput = some (suggestInputs rDup) ∧
    (∀ s ∈ suggestInputs rDup, s ≠ "" ∧
      (rDup.CLUSTERID = some s ∨ rDup.SITE = some s ∨
        rDup.DESCRIPTION = some s)) ∧
    (∀ s : String, s ≠ "" →
      (rDup.CLUSTERID = some s ∨ rDup.SITE = some s ∨
        rDup.DESCRIPTION = some s) →
      s ∈ suggestInputs rDup) :=
  suggest_input_characterized rDup

/-- C6 (counterexample): applying an update event for record `ra` to an
empty index leaves the index empty — no index document is created at
the record identifier, contrary to the claimed upsert semantics. -/
theorem update_missing_not_upsert_cex :
    handleChangeEvent [] (ChangeEvent.update ra) = [] ∧
    esGet (handleChangeEvent [] (ChangeEvent.update ra)) ra.mid = none := by
  decide

/-- C6 (amended): an update event whose record identifier has no
existing index document is not an implicit insert: the engine update
call — issued without any upsert clause — fails with a
missing-document error, the handler catch swallows it, and the index
is left unchanged (strict-update semantics). -/
theorem update_missing_swallowed (idx : EsIndex) (r : Record)
    (h : esGet idx r.mid = none) :
    handleChangeEvent idx (ChangeEvent.update r) = idx ∧
    handleChangeEventCore idx (ChangeEvent.update r) =
      .error ⟨some 404, "document_missing_exception"⟩ := by
  have hcore : handleChangeEventCore idx (ChangeEvent.update r) =
      .error ⟨some 404, "document_missing_exception"⟩ := by
    simp [handleChangeEventCore, esUpdate, h]
  exact ⟨by simp [handleChangeEvent, hcore], hcore⟩

/-- C6 (witness): the amended statement evaluated on the empty index
and the concrete record `ra`. -/
theorem update_missing_swallowed_witness :
    handleChangeEvent [] (ChangeEvent.update ra) = [] ∧
    handleChangeEventCore [] (ChangeEvent.update ra) =
      .error ⟨some 404, "document_missing_exception"⟩ :=
  update_missing_swallowed [] ra (by decide)

/-- C7: deleting an identifier that has no index document never raises
an error to the caller: the engine reports a 404 not-found, the
handler catch swallows it leaving the index unchanged, and the
remaining events of the stream are processed exactly as if the delete
had not been delivered. -/
theorem delete_missing_tolerated (idx : EsIndex) (id : String)
    (rest : List ChangeEvent) (h : esGet idx id = none) :
    handleChangeEvent idx (ChangeEvent.delete id) = idx ∧
    handleChangeEventCore idx (ChangeEvent.delete id) =
      .error ⟨some 404, "not_found"⟩ ∧
    applyChangeStream idx (ChangeEvent.delete id :: rest) =
      applyChangeStream idx rest := by
  have hcore : handleChangeEventCore idx (ChangeEvent.delete id) =
      .error ⟨some 404, "not_found"⟩ := by
    simp [handleChangeEventCore, esDelete, h]
  have happ : handleChangeEvent idx (ChangeEvent.delete id) = idx := by
    simp [handleChangeEvent, hcore]
  refine ⟨happ, hcore, ?_⟩
  simp [applyChangeStream, happ]

/-- C7 (witness): the statement evaluated on the empty index, the
absent identifier `zz` and a following insert event. -/
theorem delete_missing_tolerated_witness :
    handleChangeEvent [] (ChangeEvent.delete "zz") = [] ∧
    handleChangeEventCore [] (ChangeEvent.delete "zz") =
      .error ⟨some 404, "not_found"⟩ ∧
    applyChangeStream [] (ChangeEvent.delete "zz" :: [ChangeEvent.insert ra]) =
      applyChangeStream [] [ChangeEvent.insert ra] :=
  delete_missing_tolerated [] "zz" [ChangeEvent.insert ra] (by decide)

/-- C8 (counterexample): on the raw response `rawBoth`, which carries
an unnested top-level hits object with total 7 and a nested body hits
object with total 5, the formatter reports total 5 — it consults the
nested shape first, so the claim that the unnested shape is tried
first is false at this input. -/
theorem formatter_nested_first_cex :
    (formatSearch rawBoth).total.value = .int 5 ∧
    (formatSearch rawBoth).total.value ≠ .int 7 ∧
    rawBoth.hits = some ⟨some (.obj (some 7) none), some []⟩ := by
  decide

/-- C8 (amended): the formatter consults the nested shape
(`response.body.hits`) first and falls back to the unnested top-level
shape only when the nested one is absent; when neither shape carries
hits it returns an empty hit list with relation `eq` and the default
total (whose value slot echoes the substituted `value 0` object rather
than a bare number); a present hits object with a missing total yields
numeric total 0 with relation `eq`; a missing hit array yields an
empty hit list; and a non-empty relation on an object-shaped total is
surfaced unchanged, never dropped.  The advanced formatter resolves
its hits the same way. -/
theorem formatter_resilience (b : RawBody) (h : RawHits)
    (th : Option RawHits) (ag : Option Aggs) (hl : Option (List RawHit))
    (v : Option Int) (rel : String) (hb : b.hits = some h)
    (hrel : rel ≠ "") :
    formatSearch ⟨some b, th, ag⟩ = formatSearch ⟨some b, none, ag⟩ ∧
    formatSearch ⟨some ⟨none, none⟩, some h, ag⟩ =
      formatSearch ⟨none, some h, ag⟩ ∧
    formatSearch ⟨none, none, none⟩ =
      ⟨⟨.objEcho (some 0) none, "eq"⟩, []⟩ ∧
    (formatSearch ⟨none, some ⟨none, hl⟩, none⟩).total = ⟨.int 0, "eq"⟩ ∧
    (formatSearch ⟨none, some ⟨some (.obj v (some rel)), hl⟩,
        none⟩).total.relation = rel ∧
    (formatSearch ⟨none, some ⟨some (.obj v (some rel)), none⟩, none⟩).hits
      = [] ∧
    formatAdvanced ⟨some b, th, ag⟩ = formatAdvanced ⟨some b, none, ag⟩ := by
  refine ⟨?_, ?_, ?_, ?_, ?_, ?_, ?_⟩
  · simp [formatSearch, resolveHits, hb]
  · simp [formatSearch, resolveHits]
  · decide
  · simp [formatSearch, resolveHits, totalValueJS, relationJS]
  · simp [formatSearch, resolveHits, relationJS, hrel]
  · simp [formatSearch, resolveHits]
  · simp [formatAdvanced, resolveHits, resolveAggs, hb]

/-- C8 (witness): the amended statement evaluated on concrete raw
responses with relation `gte`. -/
theorem formatter_resilience_witness :
    formatSearch ⟨some ⟨some ⟨some (.obj (some 3) (some "gte")), some []⟩,
        none⟩, some ⟨some (.obj (some 7) none), some []⟩, none⟩ =
      formatSearch ⟨some ⟨some ⟨some (.obj (some 3) (some "gte")), some []⟩,
        none⟩, none, none⟩ ∧
    formatSearch ⟨some ⟨none, none⟩,
        some ⟨some (.obj (some 3) (some "gte")), some []⟩, none⟩ =
      formatSearch ⟨none,
        some ⟨some (.obj (some 3) (some "gte")), some []⟩, none⟩ ∧
    formatSearch ⟨none, none, none⟩ =
      ⟨⟨.objEcho (some 0) none, "eq"⟩, []⟩ ∧
    (formatSearch ⟨none, some ⟨none, none⟩, none⟩).total = ⟨.int 0, "eq"⟩ ∧
    (formatSearch ⟨none, some ⟨some (.obj (some 3) (some "gte")), none⟩,
        none⟩).total.relation = "gte" ∧
    (formatSearch ⟨none, some ⟨some (.obj (some 3) (some "gte")), none⟩,
        none⟩).hits = [] ∧
    formatAdvanced ⟨some ⟨some ⟨some (.obj (some 3) (some "gte")), some []⟩,
        none⟩, some ⟨some (.obj (some 7) none), some []⟩, none⟩ =
      formatAdvanced ⟨some ⟨some ⟨some (.obj (some 3) (some "gte")), some []⟩,
        none⟩, none, none⟩ :=
  formatter_resilience ⟨some ⟨some (.obj (some 3) (some "gte")), some []⟩, none⟩
    ⟨some (.obj (some 3) (some "gte")), some []⟩
    (some ⟨some (.obj (some 7) none), some []⟩) none none (some 3) "gte"
    (by decide) (by decide)

/-- C9: the sync status probe reports `synced` exactly when the record
count equals the index count and `difference` as record count minus
index count; a 404 from the engine count (the index does not exist
yet) is treated as index count 0 and not as an error; every other
engine failure surfaces as the HTTP 500 error reply. -/
theorem sync_status_snapshot (mc : Nat) (resp : RawCountResp)
    (e404 eOther : EsError) (h404 : e404.statusCode = some 404)
    (hOther : eOther.statusCode ≠ some 404) :
    syncStatusHandler mc (.ok resp) = .ok (syncStatusBody mc (countJS resp)) ∧
    ((syncStatusBody mc (countJS resp)).synced = true ↔
      (mc : Int) = countJS resp) ∧
    (syncStatusBody mc (countJS resp)).difference = (mc : Int) - countJS resp ∧
    syncStatusHandler mc (.error e404) = .ok (syncStatusBody mc 0) ∧
    (syncStatusBody mc 0).esCount = 0 ∧
    syncStatusHandler mc (.error eOther) =
      .err 500 "Failed to get sync status" eOther.message := by
  refine ⟨rfl, ?_, rfl, ?_, rfl, ?_⟩
  · simp [syncStatusBody]
  · simp [syncStatusHandler, h404]
  · simp [syncStatusHandler, hOther]

/-- C9 (witness): the statement evaluated with record count 3, an
engine count response of 3, a 404 engine error and a 500 engine
error. -/
theorem sync_status_snapshot_witness :
    syncStatusHandler 3 (.ok ⟨some ⟨some 3⟩, none⟩) =
      .ok (syncStatusBody 3 (countJS ⟨some ⟨some 3⟩, none⟩)) ∧
    ((syncStatusBody 3 (countJS ⟨some ⟨some 3⟩, none⟩)).synced = true ↔
      (3 : Int) = countJS ⟨some ⟨some 3⟩, none⟩) ∧
    (syncStatusBody 3 (countJS ⟨some ⟨some 3⟩, none⟩)).difference =
      (3 : Int) - countJS ⟨some ⟨some 3⟩, none⟩ ∧
    syncStatusHandler 3 (.error ⟨some 404, "index_not_found_exception"⟩) =
      .ok (syncStatusBody 3 0) ∧
    (syncStatusBody 3 0).esCount = 0 ∧
    syncStatusHandler 3 (.error ⟨some 500, "boom"⟩) =
      .err 500 "Failed to get sync status" "boom" :=
  sync_status_snapshot 3 ⟨some ⟨some 3⟩, none⟩ ⟨some 404,
    "index_not_found_exception"⟩ ⟨some 500, "boom"⟩ (by decide) (by decide)

/-- C10: the advanced search pipeline applies no bounds validation to
pagination: every advanced request is answered from the engine call
(status 200 or 500, never a 4xx client rejection), and the
out-of-range values size 0, size 101 and from -1 are parsed and
forwarded to the engine unchanged — while the main search pipeline
rejects each of those same values with HTTP 400 before any engine
call. -/
theorem advanced_no_pagination_validation
    (engine engine2 : EngineRequest → Except EsError RawResponse)
    (p : AdvQueryParams) (dev : Bool) :
    ((advancedRespond engine p).statusOf = 200 ∨
      (advancedRespond engine p).statusOf = 500) ∧
    (advancedBuildRequest { p with size := some "0" }).size = some 0 ∧
    (advancedBuildRequest { p with size := some "101" }).size = some 101 ∧
    (advancedBuildRequest { p with fromQ := some "-1" }).fromOff = some (-1) ∧
    searchRespond dev engine2 { q := some "east", size := some "0" } =
      .err 400 "Size must be a number between 1 and 100" none ∧
    searchRespond dev engine2 { q := some "east", size := some "101" } =
      .err 400 "Size must be a number between 1 and 100" none ∧
    searchRespond dev engine2 { q := some "east", fromQ := some "-1" } =
      .err 400 "From must be a non-negative number" none ∧
    (searchIssuedRequest { q := some "east", size := some "0" }).isNone
      = true := by
  refine ⟨?_, rfl, rfl, rfl, rfl, rfl, rfl, rfl⟩
  cases hE : engine (advancedBuildRequest p) with
  | ok raw =>
    left
    simp [advancedRespond, hE, AdvHttpResult.statusOf]
  | error e =>
    right
    simp [advancedRespond, hE, AdvHttpResult.statusOf]

end MongoEs
